import Mathlib

/-
Verification of the RisingWave engine adapter
(sqlmesh/core/engine_adapter/risingwave.py).

Part 1: the type-compatibility matrix configured on the adapter
(RisingWaveEngineAdapter.SCHEMA_DIFFER, source lines 43-70) and the
schema diff engine that consumes it.  The SchemaDiffer implementation
itself lives in sqlmesh.core.schema_diff, which is not part of the
sources at hand, so its lookup and decision operations are modelled
from the design document; the matrix data is transcribed from the
source verbatim.

Part 2: the catalog introspection method _get_data_objects
(source lines 144-187) together with the session-initialization
statements issued by the constructor (lines 86-97) and by
_begin_session (lines 99-105).
-/

namespace RW

/-- Base type identifiers.  In the source, matrix keys are the values of
exp.DataType.build(name, dialect="risingwave").this, i.e. case-normalized
canonical type identifiers; the seven that appear in the adapter matrix
get their own constructor and every other identifier is carried as an
uninterpreted string. -/
inductive BaseType where
  | TEXT
  | VARCHAR
  | CHAR
  | BPCHAR
  | DECIMAL
  | TIME
  | TIMESTAMP
  | other (name : String)
deriving DecidableEq, Repr

/-- Transcribed from the source (risingwave.py lines 44-50): default
parameter tuples assumed for a parameterless occurrence of a type, in
priority order.  DECIMAL defaults to (131072 + 16383, 16383) then (0,);
CHAR to (1,); TIME and TIMESTAMP to (6,). -/
def parameterized_type_defaults : BaseType → Option (List (List Nat))
  | .DECIMAL => some [[131072 + 16383, 16383], [0]]
  | .CHAR => some [[1]]
  | .TIME => some [[6]]
  | .TIMESTAMP => some [[6]]
  | _ => none

/-- Transcribed from the source (risingwave.py lines 51-69): for each
target type, the set of source types that may be ALTERed to the
unparameterized target without a rebuild.  TEXT accepts VARCHAR, CHAR,
BPCHAR; unparameterized VARCHAR accepts VARCHAR, CHAR, BPCHAR and TEXT;
unparameterized BPCHAR accepts BPCHAR. -/
def types_with_unlimited_length : BaseType → Option (List BaseType)
  | .TEXT => some [.VARCHAR, .CHAR, .BPCHAR]
  | .VARCHAR => some [.VARCHAR, .CHAR, .BPCHAR, .TEXT]
  | .BPCHAR => some [.BPCHAR]
  | _ => none

/-- A base type is registered in the matrix when it has an entry in
either component of the configured matrix.  No global fallback is
configured on this adapter. -/
def registered (t : BaseType) : Bool :=
  (parameterized_type_defaults t).isSome || (types_with_unlimited_length t).isSome

/-- Error raised when a base type has no registered matrix entry. -/
inductive UnknownTypeError where
  | unknownType
deriving DecidableEq, Repr

/-- Modelled from the spec: the TypeCompatibilityMatrix lookup
defaultParametersFor (design document section 4.1) is implemented in
sqlmesh.core.schema_diff, which is not among the sources; per the spec
it fails with UnknownTypeError if the base type has no registered entry
and no global fallback, and otherwise returns the declared
default-parameter tuples, the empty list meaning no implicit
parameters. -/
def defaultParametersFor (t : BaseType) : Except UnknownTypeError (List (List Nat)) :=
  if registered t then .ok ((parameterized_type_defaults t).getD []) else .error .unknownType

/-- Modelled from the spec: the TypeCompatibilityMatrix lookup
canWidenWithoutRebuild (design document section 4.1) is implemented in
sqlmesh.core.schema_diff, which is not among the sources; per the spec
it returns true iff the from-type is registered in the widening set of
the to-type.  The widening sets themselves are the adapter matrix
transcribed above. -/
def canWidenWithoutRebuild (fromBase toBase : BaseType) : Bool :=
  ((types_with_unlimited_length toBase).getD []).contains fromBase

/-- A column type description: a base type plus an ordered list of
numeric parameters (possibly empty). -/
structure TypeDescriptor where
  base : BaseType
  params : List Nat
deriving DecidableEq, Repr

/-- The three possible outcomes of the diff engine. -/
inductive ChangeDecision where
  | NoChange
  | SafeAlter
  | RequiresRebuild
deriving DecidableEq, Repr

/-- Desired parameters do not narrow the current ones: either the
desired side is unparameterized (unbounded), or the parameter lists
have the same arity and the desired value is at least the current value
on every dimension. -/
def nonNarrowing (cur des : List Nat) : Bool :=
  des.isEmpty ||
    (des.length == cur.length && (List.zip cur des).all (fun p => Nat.ble p.1 p.2))

/-- Single comparison step of the diff algorithm (design document
section 4.2, steps 2-5): identical base and parameters give NoChange;
differing bases with a registered widening and non-narrowing parameters
give SafeAlter; everything else requires a rebuild. -/
def compareTypes (cb : BaseType) (cp : List Nat) (db : BaseType) (dp : List Nat) :
    ChangeDecision :=
  if cb = db ∧ cp = dp then .NoChange
  else if cb ≠ db ∧ canWidenWithoutRebuild cb db = true ∧ nonNarrowing cp dp = true then
    .SafeAlter
  else .RequiresRebuild

/-- Candidate parameter lists for a descriptor (design document section
4.2, step 1): explicit parameters are used as given; a parameterless
descriptor tries the default tuples of its base type in priority order,
and a registered type with no declared defaults stays unparameterized. -/
def candidateParams (d : TypeDescriptor) : Except UnknownTypeError (List (List Nat)) :=
  if d.params.isEmpty then
    match defaultParametersFor d.base with
    | .error e => .error e
    | .ok [] => .ok [[]]
    | .ok ds => .ok ds
  else .ok [d.params]

/-- Modelled from the spec: the SchemaDiffEngine decision procedure
(design document section 4.2) is implemented in
sqlmesh.core.schema_diff, which is not among the sources.  Both
descriptors are normalized by trying default parameter tuples in
priority order, adopting the first the comparison accepts: if some
candidate pair is identical the result is NoChange, otherwise if some
candidate pair admits a safe widening the result is SafeAlter,
otherwise RequiresRebuild.  Unknown base types surface
UnknownTypeError. -/
def decide (cur des : TypeDescriptor) : Except UnknownTypeError ChangeDecision :=
  match candidateParams cur with
  | .error e => .error e
  | .ok cps =>
    match candidateParams des with
    | .error e => .error e
    | .ok dps =>
      let outcomes :=
        (cps.map (fun c => dps.map (fun d => compareTypes cur.base c des.base d))).flatten
      .ok (if outcomes.contains .NoChange then .NoChange
           else if outcomes.contains .SafeAlter then .SafeAlter
           else .RequiresRebuild)

end RW

namespace RW

/-- Claim C1: with the adapter matrix, where TEXT is registered as the
unlimited-length equivalent of VARCHAR, CHAR and BPCHAR, the diff
engine decides decide(VARCHAR(10), TEXT) = SafeAlter and
decide(TEXT, VARCHAR(10)) = RequiresRebuild. -/
theorem C1_decide_varchar_text :
    decide ⟨.VARCHAR, [10]⟩ ⟨.TEXT, []⟩ = .ok .SafeAlter ∧
      decide ⟨.TEXT, []⟩ ⟨.VARCHAR, [10]⟩ = .ok .RequiresRebuild :=
  ⟨rfl, rfl⟩

/-- Claim C2, counterexample: the claim states that TEXT is not a member
of the VARCHAR widening source set and that
canWidenWithoutRebuild(TEXT, VARCHAR) is false; in the source matrix
(risingwave.py line 63) TEXT is listed in the VARCHAR entry, so
membership holds and the lookup returns true. -/
theorem C2_text_in_varchar_set :
    BaseType.TEXT ∈ (types_with_unlimited_length .VARCHAR).getD [] ∧
      canWidenWithoutRebuild .TEXT .VARCHAR = true := by
  refine ⟨?_, rfl⟩
  simp [types_with_unlimited_length]

/-- Claim C2, amended: TEXT is a member of the VARCHAR widening source
set in this adapter matrix; equivalently canWidenWithoutRebuild(TEXT,
VARCHAR) is true. -/
theorem C2_amended_text_member :
    BaseType.TEXT ∈ (types_with_unlimited_length .VARCHAR).getD [] ∧
      canWidenWithoutRebuild .TEXT .VARCHAR = true := by
  refine ⟨?_, rfl⟩
  simp [types_with_unlimited_length]

/-- Claim C3: for every base type with no registered entry in the matrix
(no global fallback is configured), defaultParametersFor fails with
UnknownTypeError, and a decide call whose parameterless current
descriptor has that base type fails with UnknownTypeError as well,
rather than silently defaulting. -/
theorem C3_unknown_type_error (t : BaseType) (h : registered t = false) :
    defaultParametersFor t = .error .unknownType ∧
      ∀ d : TypeDescriptor, decide ⟨t, []⟩ d = .error .unknownType := by
  have hdp : defaultParametersFor t = .error .unknownType := by
    simp [defaultParametersFor, h]
  refine ⟨hdp, fun d => ?_⟩
  simp [RW.decide, candidateParams, hdp]

/-- Witness for C3 at the unregistered base type INT8. -/
theorem C3_witness :
    registered (.other "INT8") = false ∧
      defaultParametersFor (.other "INT8") = .error .unknownType ∧
      decide ⟨.other "INT8", []⟩ ⟨.TEXT, []⟩ = .error .unknownType :=
  ⟨rfl, (C3_unknown_type_error (.other "INT8") rfl).1,
    (C3_unknown_type_error (.other "INT8") rfl).2 ⟨.TEXT, []⟩⟩

/-- Claim C9: canWidenWithoutRebuild(from, to) is true iff from is
registered in the widening set of to; the relation is directional, and
the adapter matrix witnesses asymmetry: canWidenWithoutRebuild(CHAR,
TEXT) is true while canWidenWithoutRebuild(TEXT, CHAR) is false. -/
theorem C9_widening_directional :
    (∀ fb tb : BaseType,
        canWidenWithoutRebuild fb tb = true ↔
          fb ∈ (types_with_unlimited_length tb).getD []) ∧
      canWidenWithoutRebuild .CHAR .TEXT = true ∧
      canWidenWithoutRebuild .TEXT .CHAR = false := by
  refine ⟨fun fb tb => ?_, rfl, rfl⟩
  simp [canWidenWithoutRebuild]

end RW

namespace RW

/-- The three system catalog sources queried by _get_data_objects
(source lines 151-165): pg_tables, pg_views, pg_matviews. -/
inductive SourceTable where
  | pg_tables
  | pg_views
  | pg_matviews
deriving DecidableEq, Repr

/-- One kind-specific subquery: SELECT schemaname AS schema_name,
name-column AS name, literal-tag AS type FROM source. -/
structure SelectTagged where
  source : SourceTable
  tag : String
deriving DecidableEq, Repr

/-- The single discovery query built by _get_data_objects: a UNION ALL
of the tagged subqueries (distinct=False at both union nodes, source
lines 166-170), wrapped in SELECT * with a schema_name equality
condition and an optional name membership condition (lines 171-177). -/
structure Query where
  subqueries : List SelectTagged
  whereSchema : String
  whereNames : Option (List String)
deriving DecidableEq, Repr

/-- A statement executed through the adapter connection: either a
session configuration SET, or a discovery SELECT. -/
inductive Statement where
  | setConfig (name value : String)
  | select (q : Query)
deriving DecidableEq, Repr

/-- Whether a statement configures session-level behavior. -/
def isSessionConfig : Statement → Bool
  | .setConfig _ _ => true
  | .select _ => false

/-- One row of a system catalog table: its schemaname column and its
object-name column (tablename, viewname or matviewname). -/
structure CatalogRow where
  schemaname : String
  objname : String
deriving DecidableEq, Repr

/-- The catalog state visible to the discovery query: the contents of
pg_tables, pg_views and pg_matviews. -/
structure Database where
  pg_tables : List CatalogRow
  pg_views : List CatalogRow
  pg_matviews : List CatalogRow
deriving DecidableEq, Repr

/-- One row of the query result: schema_name, name and the literal type
tag attached by the subquery. -/
structure Row where
  schema_name : String
  name : String
  typeTag : String
deriving DecidableEq, Repr

/-- The rows of a catalog source. -/
def sourceRows (db : Database) : SourceTable → List CatalogRow
  | .pg_tables => db.pg_tables
  | .pg_views => db.pg_views
  | .pg_matviews => db.pg_matviews

/-- Evaluate one tagged subquery: project the schema and object name and
attach the literal tag to every row of the source. -/
def evalSelect (db : Database) (sq : SelectTagged) : List Row :=
  (sourceRows db sq.source).map (fun r => ⟨r.schemaname, r.objname, sq.tag⟩)

/-- Python truthiness of the optional name set: None and the empty set
are both falsy, so only a supplied non-empty set enables the filter
(source line 176). -/
def truthy : Option (List String) → Bool
  | none => false
  | some ns => !ns.isEmpty

/-- The WHERE predicate of the built query: schema_name equals the
requested schema (case-sensitive string equality) and, when a name
condition is present, the name is a member of the given set. -/
def rowPred (q : Query) (r : Row) : Bool :=
  r.schema_name == q.whereSchema &&
    (match q.whereNames with
     | some ns => ns.contains r.name
     | none => true)

/-- Evaluate the whole query against the catalog: concatenate the
subquery results in order (UNION ALL keeps duplicates) and filter by
the WHERE predicate. -/
def evalQuery (db : Database) (q : Query) : List Row :=
  ((q.subqueries.map (evalSelect db)).flatten).filter (rowPred q)

/-- The table subquery (source lines 151-155). -/
def table_query : SelectTagged := ⟨.pg_tables, "TABLE"⟩

/-- The view subquery (source lines 156-160). -/
def view_query : SelectTagged := ⟨.pg_views, "VIEW"⟩

/-- The materialized view subquery (source lines 161-165). -/
def materialized_view_query : SelectTagged := ⟨.pg_matviews, "MATERIALIZED_VIEW"⟩

/-- Build the discovery query exactly as _get_data_objects does: union
the three tagged subqueries, restrict to the requested schema, and add
the name condition only when the supplied name set is truthy. -/
def buildQuery (schema_name : String) (object_names : Option (List String)) : Query :=
  let base : Query := ⟨[table_query, view_query, materialized_view_query], schema_name, none⟩
  if truthy object_names then ⟨base.subqueries, base.whereSchema, object_names⟩ else base

/-- The normalized object kinds produced by this adapter. -/
inductive DataObjectType where
  | TABLE
  | VIEW
  | MATERIALIZED_VIEW
deriving DecidableEq, Repr

/-- Error for an unrecognized kind label. -/
inductive UnknownObjectKindError where
  | unknownKind
deriving DecidableEq, Repr

/-- Modelled from the spec: DataObjectType.from_str lives in
sqlmesh.core.engine_adapter.shared, which is not among the sources; per
the design document section 4.3 an unrecognized kind label fails with
UnknownObjectKindError rather than being silently dropped. -/
def dataObjectTypeFromStr (s : String) : Except UnknownObjectKindError DataObjectType :=
  if s == "TABLE" then .ok .TABLE
  else if s == "VIEW" then .ok .VIEW
  else if s == "MATERIALIZED_VIEW" then .ok .MATERIALIZED_VIEW
  else .error .unknownKind

/-- The normalized catalog entry returned to the caller (source lines
179-187): optional catalog, schema, name and kind. -/
structure DataObject where
  catalog : Option String
  schema : String
  name : String
  kind : DataObjectType
deriving DecidableEq, Repr

/-- A transport or query failure raised by the execution capability. -/
structure TransportError where
  message : String
deriving DecidableEq, Repr

/-- Errors surfaced by _get_data_objects: a propagated transport failure
or an unrecognized kind label. -/
inductive AdapterError where
  | transport (e : TransportError)
  | unknownKind (e : UnknownObjectKindError)
deriving DecidableEq, Repr

/-- Map one result row to a DataObject (source lines 180-185). -/
def rowToDataObject (catalog : Option String) (r : Row) :
    Except UnknownObjectKindError DataObject :=
  (dataObjectTypeFromStr r.typeTag).map (fun ty => ⟨catalog, r.schema_name, r.name, ty⟩)

/-- Map every result row to a DataObject, failing on the first
unrecognized kind label (the list comprehension of lines 179-187). -/
def rowsToDataObjects (catalog : Option String) :
    List Row → Except UnknownObjectKindError (List DataObject)
  | [] => .ok []
  | r :: rs =>
    match rowToDataObject catalog r with
    | .error e => .error e
    | .ok o =>
      match rowsToDataObjects catalog rs with
      | .error e => .error e
      | .ok os => .ok (o :: os)

/-- The body of _get_data_objects (source lines 144-187), parameterized
by the execution capability fetchdf.  The catalog is the constant None
(line 150); the single built query is executed once and its rows are
mapped to DataObjects.  The second component records every statement
issued through the execution capability during the call. -/
def _get_data_objects (fetchdf : Query → Except TransportError (List Row))
    (schema_name : String) (object_names : Option (List String)) :
    Except AdapterError (List DataObject) × List Statement :=
  let catalog : Option String := none
  let query := buildQuery schema_name object_names
  let result : Except AdapterError (List DataObject) :=
    match fetchdf query with
    | .error e => .error (.transport e)
    | .ok rows =>
      match rowsToDataObjects catalog rows with
      | .error e => .error (.unknownKind e)
      | .ok objs => .ok objs
  (result, [.select query])

/-- The introspection call against a concrete catalog state, with the
execution capability evaluating the query against that state. -/
def getDataObjects (db : Database) (schema_name : String)
    (object_names : Option (List String)) :
    Except AdapterError (List DataObject) × List Statement :=
  _get_data_objects (fun q => .ok (evalQuery db q)) schema_name object_names

/-- The statements executed by _begin_session (source lines 99-105): a
single session-configuration statement SET RW_IMPLICIT_FLUSH TO true. -/
def _begin_session : List Statement := [.setConfig "RW_IMPLICIT_FLUSH" "true"]

/-- The constructor (source lines 86-97) also issues
SET RW_IMPLICIT_FLUSH TO true, inside a try/except that logs and
swallows an execution failure: the statement is attempted exactly once
either way and construction completes in both cases (the Bool records
whether the statement succeeded). -/
def adapterInit (execOutcome : Except TransportError Unit) : Bool × List Statement :=
  match execOutcome with
  | .ok _ => (true, [.setConfig "RW_IMPLICIT_FLUSH" "true"])
  | .error _ => (false, [.setConfig "RW_IMPLICIT_FLUSH" "true"])

/-- Attach a literal type tag to a catalog row, as the tagged subqueries
do. -/
def tagRow (tag : String) (r : CatalogRow) : Row :=
  ⟨r.schemaname, r.objname, tag⟩

/-- Name filter as the code actually applies it: no constraint when no
name set is given or when the given set is empty, membership
otherwise. -/
def specNameFilter (names : Option (List String)) (n : String) : Bool :=
  match names with
  | none => true
  | some ns => ns.isEmpty || ns.contains n

/-- The row filter of the discovery call on catalog rows: case-sensitive
equality on the schema identifier and the name filter.  The catalog is
not part of this predicate. -/
def objFilter (s : String) (ns : Option (List String)) (r : CatalogRow) : Bool :=
  r.schemaname == s && specNameFilter ns r.objname

/-- Build the normalized object for a catalog row of a given kind; the
catalog field is always None. -/
def mkObj (k : DataObjectType) (r : CatalogRow) : DataObject :=
  ⟨none, r.schemaname, r.objname, k⟩

/-- Spec-side description of listObjects (design document section 4.3,
steps 1-5, with the name filter as the code applies it): tag each
source's rows with its kind, union the three tagged lists keeping
duplicates, filter by schema equality and the name filter, and map each
surviving row to a DataObject carrying no catalog. -/
def listObjectsSpec (db : Database) (schema : String) (names : Option (List String)) :
    List DataObject :=
  let tagged : List (CatalogRow × DataObjectType) :=
    db.pg_tables.map (fun r => (r, .TABLE)) ++
      db.pg_views.map (fun r => (r, .VIEW)) ++
        db.pg_matviews.map (fun r => (r, .MATERIALIZED_VIEW))
  (tagged.filter (fun rt => rt.1.schemaname == schema && specNameFilter names rt.1.objname)).map
    (fun rt => ⟨none, rt.1.schemaname, rt.1.objname, rt.2⟩)

end RW

namespace RW

/-- The subqueries of the built query do not depend on the name set. -/
lemma buildQuery_subqueries (s : String) (ns : Option (List String)) :
    (buildQuery s ns).subqueries = [table_query, view_query, materialized_view_query] := by
  unfold buildQuery
  cases h : truthy ns <;> simp [h]

/-- On a tagged row, the WHERE predicate of the built query coincides
with the catalog-row filter. -/
lemma rowPred_buildQuery_tagged (s : String) (ns : Option (List String)) (tag : String)
    (r : CatalogRow) :
    rowPred (buildQuery s ns) (tagRow tag r) = objFilter s ns r := by
  cases ns with
  | none => rfl
  | some l => cases l with
    | nil => rfl
    | cons a t => rfl

/-- Filtering a mapped list is mapping the filtered list. -/
lemma filter_of_map {α β : Type} (f : α → β) (p : β → Bool) (l : List α) :
    (l.map f).filter p = (l.filter (fun a => p (f a))).map f := by
  induction l with
  | nil => rfl
  | cons a t ih =>
    cases h : p (f a) <;> simp [h, ih]

/-- Row mapping distributes over append when both halves succeed. -/
lemma rowsToDataObjects_append (c : Option String) (xs ys : List Row)
    (os os' : List DataObject)
    (hx : rowsToDataObjects c xs = .ok os) (hy : rowsToDataObjects c ys = .ok os') :
    rowsToDataObjects c (xs ++ ys) = .ok (os ++ os') := by
  induction xs generalizing os with
  | nil =>
    simp [rowsToDataObjects] at hx
    subst hx
    simpa using hy
  | cons r rs ih =>
    rw [List.cons_append]
    unfold rowsToDataObjects at hx ⊢
    cases h1 : rowToDataObject c r with
    | error e => rw [h1] at hx; simp at hx
    | ok o =>
      rw [h1] at hx
      cases h2 : rowsToDataObjects c rs with
      | error e => rw [h2] at hx; simp at hx
      | ok os2 =>
        rw [h2] at hx
        simp at hx
        rw [ih os2 h2]
        simp [hx.symm]

/-- Mapping rows that all carry one recognized tag succeeds and produces
the corresponding objects. -/
lemma rowsToDataObjects_mapped (tag : String) (k : DataObjectType)
    (hk : dataObjectTypeFromStr tag = .ok k) (l : List CatalogRow) :
    rowsToDataObjects none (l.map (tagRow tag)) = .ok (l.map (mkObj k)) := by
  induction l with
  | nil => rfl
  | cons a t ih =>
    have h1 : rowToDataObject none (tagRow tag a) = .ok (mkObj k a) := by
      simp [rowToDataObject, tagRow, hk, mkObj, Except.map]
    simp [List.map_cons, rowsToDataObjects, h1, ih]

/-- The result component of the introspection call, unfolded. -/
lemma getDataObjects_fst (db : Database) (s : String) (ns : Option (List String)) :
    (getDataObjects db s ns).1 =
      (match rowsToDataObjects none (evalQuery db (buildQuery s ns)) with
       | .error e => .error (.unknownKind e)
       | .ok objs => .ok objs) := rfl

/-- The rows the single query returns: the three tagged sources
concatenated, filtered by the WHERE predicate. -/
lemma evalQuery_buildQuery (db : Database) (s : String) (ns : Option (List String)) :
    evalQuery db (buildQuery s ns) =
      (db.pg_tables.map (tagRow "TABLE")).filter (rowPred (buildQuery s ns)) ++
        ((db.pg_views.map (tagRow "VIEW")).filter (rowPred (buildQuery s ns)) ++
          (db.pg_matviews.map (tagRow "MATERIALIZED_VIEW")).filter
            (rowPred (buildQuery s ns))) := by
  rw [evalQuery, buildQuery_subqueries]
  simp only [List.map_cons, List.map_nil, List.flatten, List.append_nil, List.filter_append]
  rfl

/-- The spec-side object list, decomposed per source. -/
lemma listObjectsSpec_eq (db : Database) (s : String) (ns : Option (List String)) :
    listObjectsSpec db s ns =
      (db.pg_tables.filter (objFilter s ns)).map (mkObj .TABLE) ++
        ((db.pg_views.filter (objFilter s ns)).map (mkObj .VIEW) ++
          (db.pg_matviews.filter (objFilter s ns)).map (mkObj .MATERIALIZED_VIEW)) := by
  unfold listObjectsSpec
  simp only [List.filter_append, filter_of_map, List.map_append, List.map_map,
    List.append_assoc]
  exact rfl

/-- One tagged, filtered source maps to the filtered objects of its
kind. -/
lemma perSource (s : String) (ns : Option (List String)) (tag : String)
    (k : DataObjectType) (hk : dataObjectTypeFromStr tag = .ok k) (l : List CatalogRow) :
    rowsToDataObjects none ((l.map (tagRow tag)).filter (rowPred (buildQuery s ns))) =
      .ok ((l.filter (objFilter s ns)).map (mkObj k)) := by
  rw [filter_of_map]
  have he : (fun a => rowPred (buildQuery s ns) (tagRow tag a)) = objFilter s ns := by
    funext a
    exact rowPred_buildQuery_tagged s ns tag a
  rw [he]
  exact rowsToDataObjects_mapped tag k hk (l.filter (objFilter s ns))

/-- The introspection call returns exactly the spec-side object list. -/
lemma getDataObjects_ok (db : Database) (s : String) (ns : Option (List String)) :
    (getDataObjects db s ns).1 = .ok (listObjectsSpec db s ns) := by
  rw [getDataObjects_fst, evalQuery_buildQuery, listObjectsSpec_eq]
  rw [rowsToDataObjects_append none _ _ _ _
    (perSource s ns "TABLE" .TABLE rfl db.pg_tables)
    (rowsToDataObjects_append none _ _ _ _
      (perSource s ns "VIEW" .VIEW rfl db.pg_views)
      (perSource s ns "MATERIALIZED_VIEW" .MATERIALIZED_VIEW rfl db.pg_matviews))]

end RW

namespace RW

/-- Claim C4, counterexample: the claim states that whenever a name set
was supplied, every returned object name is a member of that set; with
the empty set supplied, the set is falsy in Python so no name filter is
added, and a schema holding one table returns that table even though
its name is not a member of the empty set. -/
theorem C4_counterexample :
    (getDataObjects ⟨[⟨"s", "t"⟩], [], []⟩ "s" (some [])).1 =
        .ok [⟨none, "s", "t", .TABLE⟩] ∧
      ¬ ("t" ∈ ([] : List String)) :=
  ⟨rfl, by simp⟩

/-- Claim C4, amended: for every schema name s and supplied name set N,
the objects returned by _get_data_objects are exactly the unioned
catalog rows whose schema identifier equals s by case-sensitive exact
match and, when a non-empty N was supplied, whose object name is a
member of N (a supplied empty N applies no name filter); catalog is
never part of the filter predicate (the filter of listObjectsSpec
mentions only the schema identifier and the object name, and the
returned objects carry catalog None as metadata only). -/
theorem C4_amended_schema_name_filter (db : Database) (s : String)
    (ns : Option (List String)) :
    (getDataObjects db s ns).1 = .ok (listObjectsSpec db s ns) ∧
      ((listObjectsSpec db s ns).all (fun o => o.catalog == none)) = true := by
  refine ⟨getDataObjects_ok db s ns, ?_⟩
  rw [listObjectsSpec_eq]
  simp only [List.all_append, Bool.and_eq_true, List.all_eq_true, List.mem_map, mkObj,
    forall_exists_index, and_imp]
  refine ⟨?_, ?_, ?_⟩ <;> (rintro x r hr rfl; rfl)

/-- Claim C5: the call produces the union of the three kind-specific
result sets, each row tagged with its literal kind label before the
union, with no de-duplication across sources: a row present in both
pg_tables and pg_views yields two distinct result entries, one tagged
TABLE and one tagged VIEW. -/
theorem C5_tagged_union_no_dedup (db : Database) (s : String) (ns : Option (List String))
    (r : CatalogRow) (ht : r ∈ db.pg_tables) (hv : r ∈ db.pg_views)
    (hs : (r.schemaname == s) = true) (hn : specNameFilter ns r.objname = true) :
    ((buildQuery s ns).subqueries.map (evalSelect db)).flatten =
        db.pg_tables.map (tagRow "TABLE") ++
          (db.pg_views.map (tagRow "VIEW") ++
            db.pg_matviews.map (tagRow "MATERIALIZED_VIEW")) ∧
      ∃ objs, (getDataObjects db s ns).1 = .ok objs ∧
        mkObj .TABLE r ∈ objs ∧ mkObj .VIEW r ∈ objs ∧
          mkObj .TABLE r ≠ mkObj .VIEW r := by
  constructor
  · rw [buildQuery_subqueries]
    simp only [List.map_cons, List.map_nil, List.flatten, List.append_nil]
    exact rfl
  · refine ⟨listObjectsSpec db s ns, getDataObjects_ok db s ns, ?_, ?_, by simp [mkObj]⟩
    · rw [listObjectsSpec_eq]
      refine List.mem_append_left _ (List.mem_map_of_mem _ ?_)
      rw [List.mem_filter]
      exact ⟨ht, by simp [objFilter, hs, hn]⟩
    · rw [listObjectsSpec_eq]
      refine List.mem_append_right _ (List.mem_append_left _ (List.mem_map_of_mem _ ?_))
      rw [List.mem_filter]
      exact ⟨hv, by simp [objFilter, hs, hn]⟩

/-- Witness for C5: a catalog where the row (s, x) is both a table and a
view yields two entries, one of each kind. -/
theorem C5_witness :
    ∃ objs,
      (getDataObjects ⟨[⟨"s", "x"⟩], [⟨"s", "x"⟩], []⟩ "s" none).1 = .ok objs ∧
        mkObj .TABLE ⟨"s", "x"⟩ ∈ objs ∧ mkObj .VIEW ⟨"s", "x"⟩ ∈ objs :=
  ((C5_tagged_union_no_dedup ⟨[⟨"s", "x"⟩], [⟨"s", "x"⟩], []⟩ "s" none ⟨"s", "x"⟩
      (by simp) (by simp) rfl rfl).2).imp
    (fun objs h => ⟨h.1, h.2.1, h.2.2.1⟩)

/-- Claim C6, counterexample: the claim states that every call issues
one discovery query per object kind, three separate round trips; the
code builds a single union query and executes it once, so the statement
trace of a concrete call has length one, not three. -/
theorem C6_counterexample :
    ((getDataObjects ⟨[], [], []⟩ "s" none).2).length = 1 ∧
      ¬ ((getDataObjects ⟨[], [], []⟩ "s" none).2).length = 3 :=
  ⟨rfl, by decide⟩

/-- Claim C6, amended: every call issues exactly one discovery query --
a single statement whose union combines the three kind-specific
subqueries over pg_tables, pg_views and pg_matviews -- executed in one
round trip through the execution capability. -/
theorem C6_amended_single_union_query (f : Query → Except TransportError (List Row))
    (s : String) (ns : Option (List String)) :
    (_get_data_objects f s ns).2 = [.select (buildQuery s ns)] ∧
      (buildQuery s ns).subqueries = [table_query, view_query, materialized_view_query] :=
  ⟨rfl, buildQuery_subqueries s ns⟩

/-- Claim C7: no statement issued by the core introspection operation is
a session-configuration statement; the session-configuration statement
SET RW_IMPLICIT_FLUSH TO true is issued only by the host-side
constructor and _begin_session. -/
theorem C7_session_config_host_only :
    (∀ (f : Query → Except TransportError (List Row)) (s : String)
        (ns : Option (List String)),
        (((_get_data_objects f s ns).2).all (fun st => !isSessionConfig st)) = true) ∧
      _begin_session.all isSessionConfig = true ∧
      ∀ o : Except TransportError Unit, (((adapterInit o).2).all isSessionConfig) = true := by
  refine ⟨fun f s ns => rfl, rfl, fun o => ?_⟩
  cases o <;> rfl

/-- Claim C8: a transport failure raised by the execution capability is
propagated to the caller unchanged by the core introspection operation,
which neither catches nor swallows it, and the trace still holds
exactly one attempt, so nothing is retried. -/
theorem C8_transport_failure_propagated (f : Query → Except TransportError (List Row))
    (s : String) (ns : Option (List String)) (e : TransportError)
    (h : f (buildQuery s ns) = .error e) :
    (_get_data_objects f s ns).1 = .error (.transport e) ∧
      ((_get_data_objects f s ns).2).length = 1 := by
  refine ⟨?_, rfl⟩
  simp [_get_data_objects, h]

/-- Witness for C8 at a capability that always fails. -/
theorem C8_witness :
    (_get_data_objects (fun _ => .error ⟨"connection lost"⟩) "s" none).1 =
        .error (.transport ⟨"connection lost"⟩) ∧
      ((_get_data_objects (fun _ => .error ⟨"connection lost"⟩) "s" none).2).length = 1 :=
  C8_transport_failure_propagated (fun _ => .error ⟨"connection lost"⟩) "s" none
    ⟨"connection lost"⟩ rfl

/-- Claim C10: supplying an empty object-name set behaves identically to
supplying no name set at all: the same query is built, with no name
condition, and the whole call agrees, rather than returning the empty
result a membership test over the empty set would give. -/
theorem C10_empty_name_set_means_no_filter (db : Database) (s : String) :
    getDataObjects db s (some []) = getDataObjects db s none := rfl

end RW



